import Mathlib

/-!
Verification of the IS-Mini-Project file-sharing service core
(security.py, crud.py, models.py, main.py) against its design spec.

Modelling conventions:
* Plaintext secrets/passwords are represented by their UTF-8 byte sequences
  (`List Nat`); Python's `password.encode('utf-8')` is the identity in this
  representation.
* SHA-256 is modelled as an ideal (collision-free) digest: `sha256` wraps the
  message in an opaque `Sha256` value, so digest equality coincides with
  message equality.  All hashing claims are read under this standard
  ideal-hash assumption; the logic around the digest (truncation, placeholder
  substitution, comparison) is translated faithfully from security.py.
* JWTs are modelled symbolically: a signature is an opaque value determined by
  the signing key and the signed claims (ideal MAC), and a token is either a
  parseable claims+signature pair or an unparseable blob.  `jwt_decode`
  follows python-jose semantics: signature check first, then the exp claim
  with leeway 0, which raises ExpiredSignatureError only when exp < now — a
  token is still accepted during the second now == exp.
* The database session is a `List` of user / file records; SQLAlchemy
  `filter(...).first()` becomes `List.find?`.
* Wall-clock instants are `Nat` (epoch seconds).
-/

namespace ISMini

/-! ## Ideal SHA-256 digest -/

/-- Ideal model of a hex-encoded SHA-256 digest: the digest of a message is an
opaque wrapper around the message bytes, so two digests are equal exactly when
the messages are (collision-freeness assumed). -/
structure Sha256 where
  message : List Nat
deriving DecidableEq

/-- Ideal model of `hashlib.sha256(m).hexdigest()`. -/
def sha256 (m : List Nat) : Sha256 := ⟨m⟩

theorem sha256_inj {a b : List Nat} (h : sha256 a = sha256 b) : a = b :=
  congrArg Sha256.message h

/-! ## security.py: password hashing -/

/-- security.py `verify_password`: compares `sha256(plain).hexdigest()` with
the stored hash string, on the full, untruncated input. -/
def verify_password (plain_password : List Nat) (hashed_password : Sha256) : Bool :=
  sha256 plain_password == hashed_password

/-- A UTF-8 continuation byte (0x80–0xBF). -/
def isContByte (b : Nat) : Bool := decide (0x80 ≤ b) && decide (b < 0xC0)

/-- Length of the UTF-8 sequence announced by a lead byte. -/
def utf8SeqLen (b : Nat) : Nat :=
  if b < 0x80 then 1
  else if b < 0xC0 then 1
  else if b < 0xE0 then 2
  else if b < 0xF0 then 3
  else 4

/-- Model of `bs.decode('utf-8', errors='ignore')` followed by re-encoding,
for `bs` a prefix of a valid UTF-8 encoding (the only shape security.py feeds
it): a trailing incomplete multi-byte sequence is dropped, everything else is
kept. -/
def decodeIgnoreTail (bs : List Nat) : List Nat :=
  let r := bs.reverse
  let k := (r.takeWhile isContByte).length
  match r.drop k with
  | [] => bs
  | lead :: _ => if k + 1 < utf8SeqLen lead then (r.drop (k + 1)).reverse else bs

theorem decodeIgnoreTail_length_le (bs : List Nat) :
    (decodeIgnoreTail bs).length ≤ bs.length := by
  unfold decodeIgnoreTail
  simp only []
  cases h : bs.reverse.drop ((bs.reverse.takeWhile isContByte).length) with
  | nil => simp
  | cons lead rest =>
    by_cases hk : (bs.reverse.takeWhile isContByte).length + 1 < utf8SeqLen lead
    · simp only [hk, if_true, List.length_reverse, List.length_drop]
      omega
    · simp [hk]

/-- The UTF-8 bytes of the placeholder string "default_password" substituted
by security.py for an empty input. -/
def default_password : List Nat :=
  [100, 101, 102, 97, 117, 108, 116, 95, 112, 97, 115, 115, 119, 111, 114, 100]

/-- security.py `get_password_hash`: truncate the UTF-8 encoding to 72 bytes
(dropping an incomplete trailing character), substitute "default_password" if
the result is empty, then digest. -/
def get_password_hash (password : List Nat) : Sha256 :=
  let password := if password.length > 72 then decodeIgnoreTail (password.take 72) else password
  let password := if password.isEmpty then default_password else password
  sha256 password

/-! ## security.py: JWT access tokens (symbolic model) -/

/-- The claims structure carried by a token: the "sub" entry (payload.get
returns None when absent) and the "exp" instant in epoch seconds. -/
structure Claims where
  sub : Option String
  exp : Nat
deriving DecidableEq

/-- Ideal MAC: a signature value is determined by the signing key and the
signed claims, and two signatures coincide only when both agree. -/
inductive Signature where
  | mac (key : String) (claims : Claims)
deriving DecidableEq

/-- A wire token: either a parseable claims+signature pair or a blob that
fails JWT parsing altogether. -/
inductive Token where
  | signed (claims : Claims) (sig : Signature)
  | unparseable (raw : String)
deriving DecidableEq

/-- The distinct failure kinds of python-jose `jwt.decode` (all subclasses of
JWTError). -/
inductive JWTErrorKind where
  | invalidSignature
  | expired
  | malformedToken
deriving DecidableEq

/-- security.py `create_access_token` / `jwt.encode`: sign the claims with the
given key. The code inserts the "exp" claim computed as now + expires_delta
(seconds) before encoding. -/
def jwt_encode (claims : Claims) (key : String) : Token :=
  .signed claims (.mac key claims)

/-- security.py `create_access_token`: encode \x7b"sub": subject, "exp":
now + expires_delta\x7d under the server key. -/
def create_access_token (key : String) (sub : Option String)
    (now expires_delta : Nat) : Token :=
  jwt_encode ⟨sub, now + expires_delta⟩ key

/-- python-jose `jwt.decode(token, key, algorithms)`: parse, verify the
signature against the key, then validate the "exp" claim as jose's
`_validate_exp` does with the default leeway 0: ExpiredSignatureError is
raised only when exp < now, so a token is still accepted during the second
now == exp. -/
def jwt_decode (t : Token) (key : String) (now : Nat) : Except JWTErrorKind Claims :=
  match t with
  | .unparseable _ => .error .malformedToken
  | .signed c s =>
    if s ≠ Signature.mac key c then .error .invalidSignature
    else if c.exp < now then .error .expired
    else .ok c

/-! ## models.py / crud.py: users and files -/

/-- models.py `User` row. -/
structure User where
  id : Nat
  username : String
  email : String
  hashed_password : Sha256
  is_active : Bool
  is_admin : Bool
deriving DecidableEq

/-- models.py `File` row; `recipient_id` is nullable. -/
structure FileRecord where
  id : Nat
  filename : String
  saved_filename : String
  owner_id : Nat
  recipient_id : Option Nat
deriving DecidableEq

/-- crud.py `get_user_by_username`: `filter(User.username == username).first()`. -/
def get_user_by_username (db : List User) (username : String) : Option User :=
  db.find? (fun u => u.username == username)

/-- crud.py `get_file_by_saved_name`: `filter(File.saved_filename == s).first()`. -/
def get_file_by_saved_name (db : List FileRecord) (saved_filename : String) :
    Option FileRecord :=
  db.find? (fun f => f.saved_filename == saved_filename)

/-! ## main.py: access-control gate -/

/-- A FastAPI HTTPException as seen by the client: status code and detail. -/
structure HTTPError where
  status : Nat
  detail : String
deriving DecidableEq

/-- main.py `get_current_user`'s single catch-all failure response. -/
def credentials_exception : HTTPError := ⟨401, "Could not validate credentials"⟩

/-- main.py `get_current_user` after token extraction: decode the token under
the server key (every JWTError collapses to `credentials_exception`), read the
"sub" claim, and resolve it in the credential store. -/
def get_current_user (db : List User) (key : String) (now : Nat)
    (token : Option Token) : Except HTTPError User :=
  match token with
  | none => .error credentials_exception
  | some t =>
    match jwt_decode t key now with
    | .error _ => .error credentials_exception
    | .ok payload =>
      match payload.sub with
      | none => .error credentials_exception
      | some username =>
        match get_user_by_username db username with
        | none => .error credentials_exception
        | some user => .ok user

/-- main.py `get_current_active_user`: reject resolved-but-inactive accounts. -/
def get_current_active_user (db : List User) (key : String) (now : Nat)
    (token : Option Token) : Except HTTPError User :=
  match get_current_user db key now token with
  | .error e => .error e
  | .ok current_user =>
    if current_user.is_active = false then .error ⟨400, "Inactive user"⟩
    else .ok current_user

/-- main.py `get_current_admin_user`: additionally require the admin flag. -/
def get_current_admin_user (db : List User) (key : String) (now : Nat)
    (token : Option Token) : Except HTTPError User :=
  match get_current_active_user db key now token with
  | .error e => .error e
  | .ok current_user =>
    if current_user.is_admin = false then .error ⟨403, "Admin access required"⟩
    else .ok current_user

/-! ## main.py: login endpoints -/

/-- Outcome of the web login route POST /login: either the login page is
re-rendered with an error message (HTTP 200), or a 303 redirect to /dashboard
carrying the access-token cookie. -/
inductive WebLoginResult where
  | errorPage (error : String)
  | redirectWithCookie (access_token : Token)
deriving DecidableEq

/-- main.py `login_for_access_token` (POST /login): look up the username,
fail with the one generic error page when the user is missing, inactive, or
the password does not verify; otherwise issue a token whose ttl is
ACCESS_TOKEN_EXPIRE_MINUTES. -/
def login_for_access_token (db : List User) (key : String)
    (now expire_minutes : Nat) (username : String) (password : List Nat) :
    WebLoginResult :=
  match get_user_by_username db username with
  | none => .errorPage "Incorrect username or password"
  | some user =>
    if user.is_active = false ∨ verify_password password user.hashed_password = false then
      .errorPage "Incorrect username or password"
    else
      .redirectWithCookie
        (create_access_token key (some user.username) now (expire_minutes * 60))

/-- Outcome of the API login route POST /token: an HTTPException or the JSON
token response. -/
inductive ApiLoginResult where
  | httpError (e : HTTPError)
  | tokenResponse (access_token : Token) (token_type : String)
deriving DecidableEq

/-- main.py `api_login_for_access_token` (POST /token): same credential check
as the web route, but failures are a 401 HTTPException and success is a JSON
body. -/
def api_login_for_access_token (db : List User) (key : String)
    (now expire_minutes : Nat) (username : String) (password : List Nat) :
    ApiLoginResult :=
  match get_user_by_username db username with
  | none => .httpError ⟨401, "Incorrect username or password"⟩
  | some user =>
    if user.is_active = false ∨ verify_password password user.hashed_password = false then
      .httpError ⟨401, "Incorrect username or password"⟩
    else
      .tokenResponse
        (create_access_token key (some user.username) now (expire_minutes * 60)) "bearer"

/-! ## main.py: download endpoint -/

/-- Outcome of GET /download/\x7bsaved_filename\x7d: an HTTPException or a
FileResponse serving the blob at `path` under the download name `filename`. -/
inductive DownloadResult where
  | httpError (e : HTTPError)
  | fileResponse (path : String) (filename : String)
deriving DecidableEq

/-- main.py `download_file`, given the already-authenticated active user.
The blob store is modelled by the list of stored filenames present on disk
(`os.path.exists` on UPLOAD_DIR/saved_filename becomes membership). The
FileResponse is served with the record's original `filename` as download
name. -/
def download_file (files : List FileRecord) (disk : List String)
    (current_user : User) (saved_filename : String) : DownloadResult :=
  match get_file_by_saved_name files saved_filename with
  | none => .httpError ⟨404, "File not found"⟩
  | some db_file =>
    if db_file.owner_id ≠ current_user.id ∧ db_file.recipient_id ≠ some current_user.id then
      .httpError ⟨403, "Not authorized to download this file"⟩
    else if db_file.saved_filename ∉ disk then
      .httpError ⟨404, "File not found on disk"⟩
    else
      .fileResponse db_file.saved_filename db_file.filename

/-! ## Helper lemmas on the hasher -/

theorem verify_password_sha256_iff (a b : List Nat) :
    verify_password a (sha256 b) = true ↔ a = b := by
  unfold verify_password
  rw [beq_iff_eq]
  exact ⟨fun h => sha256_inj h, fun h => by rw [h]⟩

theorem verify_password_sha256_ne (a b : List Nat) (hne : a ≠ b) :
    verify_password a (sha256 b) = false := by
  cases hb : verify_password a (sha256 b) with
  | false => rfl
  | true => exact absurd ((verify_password_sha256_iff a b).mp hb) hne

theorem get_password_hash_of_le (s : List Nat) (h0 : s ≠ []) (h72 : s.length ≤ 72) :
    get_password_hash s = sha256 s := by
  unfold get_password_hash
  have h1 : ¬ (s.length > 72) := by omega
  have h2 : s.isEmpty = false := by
    cases s with
    | nil => exact absurd rfl h0
    | cons a l => rfl
  simp [h1, h2]

/-! ## Claim theorems: password hasher -/

/-- Claim C3 fails as stated: the two distinct secrets "default_password" and
"" (the empty byte string) satisfy verify("default_password", hash("")) =
true, because the hasher substitutes the placeholder "default_password" for
empty input. -/
theorem C3_counterexample :
    default_password ≠ ([] : List Nat)
    ∧ verify_password default_password (get_password_hash []) = true := by
  constructor
  · decide
  · rfl

/-- Claim C3 (amended): restricted to secrets in the supported length range —
nonempty and at most 72 UTF-8 bytes — verify(s, hash(s)) is true, and for
distinct s, t both in that range verify(s, hash(t)) is false (under the
ideal-digest reading of SHA-256). -/
theorem C3_verify_hash_in_range (s t : List Nat)
    (hs0 : s ≠ []) (hs72 : s.length ≤ 72)
    (ht0 : t ≠ []) (ht72 : t.length ≤ 72) :
    verify_password s (get_password_hash s) = true
    ∧ (s ≠ t → verify_password s (get_password_hash t) = false) := by
  constructor
  · rw [get_password_hash_of_le s hs0 hs72]
    exact (verify_password_sha256_iff s s).mpr rfl
  · intro hne
    rw [get_password_hash_of_le t ht0 ht72]
    exact verify_password_sha256_ne s t hne

theorem C3_witness :
    verify_password [97] (get_password_hash [97]) = true
    ∧ verify_password [97] (get_password_hash [98]) = false :=
  ⟨(C3_verify_hash_in_range [97] [98] (by decide) (by decide) (by decide) (by decide)).1,
   (C3_verify_hash_in_range [97] [98] (by decide) (by decide) (by decide) (by decide)).2
     (by decide)⟩

/-- Claim C4: the spec demands that empty input be rejected or normalized
rather than silently hashed as a placeholder, but get_password_hash("")
returns exactly the digest of the substituted placeholder string
"default_password" — the code contradicts the spec at the empty input. -/
theorem C4_empty_input_hashes_placeholder :
    get_password_hash [] = sha256 default_password
    ∧ ([] : List Nat) ≠ default_password := by
  constructor
  · rfl
  · decide

/-- Claim C10: for every secret longer than 72 UTF-8 bytes, the hasher
digests a truncation of at most 72 bytes while verify digests the full
input, so verify(s, hash(s)) is false. -/
theorem C10_long_secrets_fail_roundtrip (s : List Nat) (h : 72 < s.length) :
    (∃ t : List Nat, get_password_hash s = sha256 t ∧ t.length ≤ 72)
    ∧ verify_password s (get_password_hash s) = false := by
  have hhash : get_password_hash s
      = sha256 (if (decodeIgnoreTail (s.take 72)).isEmpty then default_password
                else decodeIgnoreTail (s.take 72)) := by
    unfold get_password_hash
    have h1 : s.length > 72 := h
    simp only [h1, if_true, if_pos h1]
  have hle : (if (decodeIgnoreTail (s.take 72)).isEmpty then default_password
              else decodeIgnoreTail (s.take 72)).length ≤ 72 := by
    split
    · decide
    · calc (decodeIgnoreTail (s.take 72)).length
          ≤ (s.take 72).length := decodeIgnoreTail_length_le _
        _ ≤ 72 := by simp [List.length_take]
  refine ⟨⟨_, hhash, hle⟩, ?_⟩
  rw [hhash]
  apply verify_password_sha256_ne
  intro heq
  have hl := congrArg List.length heq
  simp only [] at hl
  omega

theorem C10_witness :
    verify_password (List.replicate 73 97) (get_password_hash (List.replicate 73 97)) = false :=
  (C10_long_secrets_fail_roundtrip (List.replicate 73 97) (by decide)).2

/-! ## Claim theorems: token validation and the access-control gate -/

/-- Claim C2 fails as stated: at validation instant 100 the gate accepts a
token whose "exp" claim is exactly 100 — python-jose with leeway 0 raises
ExpiredSignatureError only when exp < now — so the accepted token's expiry
instant is not strictly in the future at validation time. -/
theorem C2_counterexample :
    get_current_user [⟨1, "alice", "alice@example.com", sha256 [97], true, false⟩]
        "serverkey" 100 (some (jwt_encode ⟨some "alice", 100⟩ "serverkey"))
      = .ok ⟨1, "alice", "alice@example.com", sha256 [97], true, false⟩
    ∧ ¬ (100 < (Claims.mk (some "alice") 100).exp) :=
  ⟨rfl, by decide⟩

/-- Claim C2 (amended): whenever the gate accepts a token and returns a user,
the token is a signed claims structure whose signature was produced under the
server's configured key and whose expiry instant is no earlier than the
validation instant (jose's leeway-0 check accepts through the second
now == exp); and any token signed under a different key is rejected with the
credentials exception, regardless of its claimed subject or expiry. -/
theorem C2_accepted_tokens_are_valid (db : List User) (key : String) (now : Nat)
    (token : Option Token) (u : User)
    (h : get_current_user db key now token = .ok u) :
    (∃ c : Claims, token = some (Token.signed c (Signature.mac key c)) ∧ now ≤ c.exp)
    ∧ (∀ (c : Claims) (key2 : String), key2 ≠ key →
        get_current_user db key now (some (jwt_encode c key2))
          = .error credentials_exception) := by
  constructor
  · cases token with
    | none => exact absurd h (by simp [get_current_user])
    | some t =>
      cases t with
      | unparseable raw => exact absurd h (by simp [get_current_user, jwt_decode])
      | signed c s =>
        by_cases hs : s = Signature.mac key c
        · subst hs
          by_cases hexp : c.exp < now
          · exact absurd h (by simp [get_current_user, jwt_decode, hexp])
          · exact ⟨c, rfl, by omega⟩
        · exact absurd h (by simp [get_current_user, jwt_decode, hs])
  · intro c key2 hk
    have hs : Signature.mac key2 c ≠ Signature.mac key c := by
      simp only [ne_eq, Signature.mac.injEq, and_true]
      exact hk
    simp [get_current_user, jwt_encode, jwt_decode, hs]

theorem C2_witness :
    get_current_user [⟨1, "alice", "alice@example.com", sha256 [97], true, false⟩] "serverkey"
      100 (some (jwt_encode ⟨some "alice", 200⟩ "otherkey"))
      = .error credentials_exception :=
  (C2_accepted_tokens_are_valid
      [⟨1, "alice", "alice@example.com", sha256 [97], true, false⟩] "serverkey" 100
      (some (jwt_encode ⟨some "alice", 200⟩ "serverkey"))
      ⟨1, "alice", "alice@example.com", sha256 [97], true, false⟩ (by rfl)).2
    ⟨some "alice", 200⟩ "otherkey" (by decide)

/-- Claim C6 fails as stated: an invalid-signature token and an expired token
fail with different token-service error kinds, yet the gate returns the
identical client-visible response (401 "Could not validate credentials") for
both. -/
theorem C6_counterexample :
    jwt_decode (Token.signed ⟨some "alice", 200⟩ (Signature.mac "other" ⟨some "alice", 200⟩))
        "k" 100 = .error .invalidSignature
    ∧ jwt_decode (Token.signed ⟨some "alice", 50⟩ (Signature.mac "k" ⟨some "alice", 50⟩))
        "k" 100 = .error .expired
    ∧ get_current_user [] "k" 100
        (some (Token.signed ⟨some "alice", 200⟩ (Signature.mac "other" ⟨some "alice", 200⟩)))
      = get_current_user [] "k" 100
        (some (Token.signed ⟨some "alice", 50⟩ (Signature.mac "k" ⟨some "alice", 50⟩))) :=
  ⟨rfl, rfl, rfl⟩

/-- Claim C6 (amended): the gate collapses every token-service error kind
into the single Unauthenticated response (401 "Could not validate
credentials") instead of propagating them distinctly; the gate's terminal
error states Unauthenticated, AccountInactive (400 "Inactive user") and
Forbidden (403 "Admin access required") do map to pairwise distinct
client-visible responses. -/
theorem C6_gate_error_responses (db : List User) (key : String) (now : Nat)
    (tok : Option Token) :
    (∀ (t : Token) (e : JWTErrorKind), tok = some t → jwt_decode t key now = .error e →
        get_current_user db key now tok = .error credentials_exception)
    ∧ (∀ u : User, get_current_user db key now tok = .ok u → u.is_active = false →
        get_current_active_user db key now tok = .error ⟨400, "Inactive user"⟩)
    ∧ (∀ u : User, get_current_user db key now tok = .ok u → u.is_active = true →
        u.is_admin = false →
        get_current_admin_user db key now tok = .error ⟨403, "Admin access required"⟩)
    ∧ credentials_exception ≠ ⟨400, "Inactive user"⟩
    ∧ credentials_exception ≠ ⟨403, "Admin access required"⟩
    ∧ (⟨400, "Inactive user"⟩ : HTTPError) ≠ ⟨403, "Admin access required"⟩ := by
  refine ⟨?_, ?_, ?_, by decide, by decide, by decide⟩
  · intro t e ht hd
    subst ht
    simp [get_current_user, hd]
  · intro u hu hin
    simp [get_current_active_user, hu, hin]
  · intro u hu hact hadm
    simp [get_current_admin_user, get_current_active_user, hu, hact, hadm]

theorem C6_witness :
    get_current_admin_user [⟨1, "alice", "alice@example.com", sha256 [97], true, false⟩]
      "serverkey" 100 (some (jwt_encode ⟨some "alice", 200⟩ "serverkey"))
      = .error ⟨403, "Admin access required"⟩ :=
  (C6_gate_error_responses [⟨1, "alice", "alice@example.com", sha256 [97], true, false⟩]
      "serverkey" 100 (some (jwt_encode ⟨some "alice", 200⟩ "serverkey"))).2.2.1
    ⟨1, "alice", "alice@example.com", sha256 [97], true, false⟩ (by rfl) rfl rfl

/-! ## Claim theorems: login endpoints -/

/-- Claim C7: a login attempt with an unknown username and a login attempt
with an existing username but wrong password produce identical client-visible
responses, on both the web form route (same error page, same message) and the
API route (same 401 with the same generic detail). -/
theorem C7_login_failures_indistinguishable (db : List User) (key : String)
    (now m : Nat) (name1 name2 : String) (pw1 pw2 : List Nat) (user : User)
    (h1 : get_user_by_username db name1 = none)
    (h2 : get_user_by_username db name2 = some user)
    (hpw : verify_password pw2 user.hashed_password = false) :
    login_for_access_token db key now m name1 pw1
      = login_for_access_token db key now m name2 pw2
    ∧ login_for_access_token db key now m name2 pw2
      = .errorPage "Incorrect username or password"
    ∧ api_login_for_access_token db key now m name1 pw1
      = api_login_for_access_token db key now m name2 pw2
    ∧ api_login_for_access_token db key now m name2 pw2
      = .httpError ⟨401, "Incorrect username or password"⟩ := by
  have e1 : login_for_access_token db key now m name1 pw1
      = .errorPage "Incorrect username or password" := by
    simp [login_for_access_token, h1]
  have e2 : login_for_access_token db key now m name2 pw2
      = .errorPage "Incorrect username or password" := by
    simp [login_for_access_token, h2, hpw]
  have a1 : api_login_for_access_token db key now m name1 pw1
      = .httpError ⟨401, "Incorrect username or password"⟩ := by
    simp [api_login_for_access_token, h1]
  have a2 : api_login_for_access_token db key now m name2 pw2
      = .httpError ⟨401, "Incorrect username or password"⟩ := by
    simp [api_login_for_access_token, h2, hpw]
  exact ⟨e1.trans e2.symm, e2, a1.trans a2.symm, a2⟩

theorem C7_witness :
    login_for_access_token [⟨1, "bob", "bob@example.com", sha256 [97], true, false⟩]
        "serverkey" 100 30 "alice" [97]
      = login_for_access_token [⟨1, "bob", "bob@example.com", sha256 [97], true, false⟩]
        "serverkey" 100 30 "bob" [98] :=
  (C7_login_failures_indistinguishable
      [⟨1, "bob", "bob@example.com", sha256 [97], true, false⟩] "serverkey" 100 30
      "alice" "bob" [97] [98] ⟨1, "bob", "bob@example.com", sha256 [97], true, false⟩
      (by rfl) (by rfl) (by rfl)).1

/-- Claim C9: both login routes refuse an account whose active flag is false
with exactly the generic bad-credentials response, so no access token is
issued to an inactive account at issuance time. -/
theorem C9_inactive_account_login_refused (db : List User) (key : String)
    (now m : Nat) (username : String) (password : List Nat) (user : User)
    (h : get_user_by_username db username = some user)
    (hin : user.is_active = false) :
    login_for_access_token db key now m username password
      = .errorPage "Incorrect username or password"
    ∧ api_login_for_access_token db key now m username password
      = .httpError ⟨401, "Incorrect username or password"⟩ := by
  constructor
  · simp [login_for_access_token, h, hin]
  · simp [api_login_for_access_token, h, hin]

theorem C9_witness :
    login_for_access_token [⟨1, "bob", "bob@example.com", sha256 [97], false, false⟩]
        "serverkey" 100 30 "bob" [97]
      = .errorPage "Incorrect username or password" :=
  (C9_inactive_account_login_refused
      [⟨1, "bob", "bob@example.com", sha256 [97], false, false⟩] "serverkey" 100 30
      "bob" [97] ⟨1, "bob", "bob@example.com", sha256 [97], false, false⟩
      (by rfl) rfl).1

/-! ## Claim theorems: download authorization -/

theorem download_file_some (files : List FileRecord) (disk : List String)
    (u : User) (saved : String) (f : FileRecord)
    (hf : get_file_by_saved_name files saved = some f) :
    download_file files disk u saved =
      if f.owner_id ≠ u.id ∧ f.recipient_id ≠ some u.id then
        .httpError ⟨403, "Not authorized to download this file"⟩
      else if f.saved_filename ∉ disk then
        .httpError ⟨404, "File not found on disk"⟩
      else
        .fileResponse f.saved_filename f.filename := by
  unfold download_file
  rw [hf]

/-- Claim C1: for every file record, download is denied with the 403 error
exactly when the requesting user is neither the owner nor the recipient; in
particular an admin who is neither owner nor recipient is denied with 403. -/
theorem C1_download_iff_owner_or_recipient (files : List FileRecord)
    (disk : List String) (u : User) (saved : String) (f : FileRecord)
    (hf : get_file_by_saved_name files saved = some f) :
    (download_file files disk u saved
        = .httpError ⟨403, "Not authorized to download this file"⟩
      ↔ ¬ (u.id = f.owner_id ∨ f.recipient_id = some u.id))
    ∧ (u.is_admin = true → u.id ≠ f.owner_id → f.recipient_id ≠ some u.id →
        download_file files disk u saved
          = .httpError ⟨403, "Not authorized to download this file"⟩) := by
  rw [download_file_some files disk u saved f hf]
  constructor
  · by_cases hc : f.owner_id ≠ u.id ∧ f.recipient_id ≠ some u.id
    · rw [if_pos hc]
      constructor
      · intro _
        push_neg
        exact ⟨fun he => hc.1 he.symm, hc.2⟩
      · intro _
        rfl
    · rw [if_neg hc]
      constructor
      · intro hEq
        exfalso
        by_cases hd : f.saved_filename ∉ disk
        · rw [if_pos hd] at hEq
          exact absurd hEq (by simp)
        · rw [if_neg hd] at hEq
          exact absurd hEq (by simp)
      · intro hno
        exfalso
        push_neg at hno
        exact hc ⟨fun he => hno.1 he.symm, hno.2⟩
  · intro _ ho hr
    rw [if_pos ⟨fun he => ho he.symm, hr⟩]

theorem C1_witness :
    download_file [⟨1, "report.pdf", "stored-abc", 1, some 2⟩] ["stored-abc"]
      ⟨3, "admin", "admin@example.com", sha256 [97], true, true⟩ "stored-abc"
      = .httpError ⟨403, "Not authorized to download this file"⟩ :=
  (C1_download_iff_owner_or_recipient [⟨1, "report.pdf", "stored-abc", 1, some 2⟩]
      ["stored-abc"] ⟨3, "admin", "admin@example.com", sha256 [97], true, true⟩
      "stored-abc" ⟨1, "report.pdf", "stored-abc", 1, some 2⟩ (by rfl)).2
    rfl (by decide) (by decide)

/-- Claim C5: GET /download returns 404 "File not found" when no record
matches, 403 when the record exists but the ownership/recipient check fails,
404 (not another status) when the record exists and authorization succeeds
but the blob is missing on disk, and otherwise the file is served under the
record's original filename, not the stored one. -/
theorem C5_download_status_cases (files : List FileRecord) (disk : List String)
    (u : User) (saved : String) :
    (get_file_by_saved_name files saved = none →
      download_file files disk u saved = .httpError ⟨404, "File not found"⟩)
    ∧ (∀ f : FileRecord, get_file_by_saved_name files saved = some f →
        (f.owner_id ≠ u.id ∧ f.recipient_id ≠ some u.id →
          download_file files disk u saved
            = .httpError ⟨403, "Not authorized to download this file"⟩)
        ∧ (u.id = f.owner_id ∨ f.recipient_id = some u.id →
            f.saved_filename ∉ disk →
          download_file files disk u saved
            = .httpError ⟨404, "File not found on disk"⟩)
        ∧ (u.id = f.owner_id ∨ f.recipient_id = some u.id →
            f.saved_filename ∈ disk →
          download_file files disk u saved
            = .fileResponse f.saved_filename f.filename)) := by
  constructor
  · intro h
    unfold download_file
    rw [h]
  · intro f hf
    rw [download_file_some files disk u saved f hf]
    have hAuth : ∀ hor : u.id = f.owner_id ∨ f.recipient_id = some u.id,
        ¬ (f.owner_id ≠ u.id ∧ f.recipient_id ≠ some u.id) := by
      intro hor hc
      cases hor with
      | inl h => exact hc.1 h.symm
      | inr h => exact hc.2 h
    refine ⟨?_, ?_, ?_⟩
    · intro hc
      rw [if_pos hc]
    · intro hor hd
      rw [if_neg (hAuth hor), if_pos hd]
    · intro hor hd
      rw [if_neg (hAuth hor), if_neg (not_not_intro hd)]

theorem C5_witness :
    download_file [⟨1, "report.pdf", "stored-abc", 1, some 2⟩] ["stored-abc"]
      ⟨1, "owner", "owner@example.com", sha256 [97], true, false⟩ "stored-abc"
      = .fileResponse "stored-abc" "report.pdf" :=
  ((C5_download_status_cases [⟨1, "report.pdf", "stored-abc", 1, some 2⟩] ["stored-abc"]
      ⟨1, "owner", "owner@example.com", sha256 [97], true, false⟩ "stored-abc").2
    ⟨1, "report.pdf", "stored-abc", 1, some 2⟩ (by rfl)).2.2 (Or.inl rfl) (by decide)

/-- Claim C8: for a file record whose recipient id is null, no user id ever
compares equal to the null recipient reference, so the download check permits
only the owner and every non-owner is denied with 403. -/
theorem C8_null_recipient_owner_only (files : List FileRecord)
    (disk : List String) (u : User) (saved : String) (f : FileRecord)
    (hf : get_file_by_saved_name files saved = some f)
    (hr : f.recipient_id = none)
    (hno : u.id ≠ f.owner_id) :
    f.recipient_id ≠ some u.id
    ∧ download_file files disk u saved
        = .httpError ⟨403, "Not authorized to download this file"⟩ := by
  have hns : f.recipient_id ≠ some u.id := by
    rw [hr]
    exact fun h => Option.noConfusion h
  refine ⟨hns, ?_⟩
  rw [download_file_some files disk u saved f hf,
    if_pos ⟨fun he => hno he.symm, hns⟩]

theorem C8_witness :
    download_file [⟨1, "report.pdf", "stored-abc", 1, none⟩] ["stored-abc"]
      ⟨2, "carol", "carol@example.com", sha256 [97], true, false⟩ "stored-abc"
      = .httpError ⟨403, "Not authorized to download this file"⟩ :=
  (C8_null_recipient_owner_only [⟨1, "report.pdf", "stored-abc", 1, none⟩] ["stored-abc"]
      ⟨2, "carol", "carol@example.com", sha256 [97], true, false⟩ "stored-abc"
      ⟨1, "report.pdf", "stored-abc", 1, none⟩ (by rfl) rfl (by decide)).2
